import Mathlib

/-!
Shallow embedding of the physics/collision core of `src/main.rs` (a Pong
game built on the bevy engine).  Scalars are modelled as exact rationals
(`ℚ`); every constant of the source is exactly representable, so the
embedded arithmetic agrees with the `f32` arithmetic of the source on all
inputs used below.  The embedded functions mirror, line for line:

* the configuration constants (lines 7-32),
* `WallLocation::position` / `WallLocation::size` (lines 93-113),
* bevy's `Aabb2d::new`, `Aabb2d::closest_point` and
  `BoundingCircle::intersects` (circle/AABB test:
  `dist²(closest_point(center), center) ≤ radius²`),
* `apply_velocity` (lines 186-194),
* `move_paddle` (lines 241-264),
* `collide_with_side` (lines 274-294),
* the per-collider body of `check_for_collision` (lines 196-239), folded
  over a list of collider boxes in iteration order.
-/

namespace BevyPong

/-- A 2D vector with rational coordinates (models glam's `Vec2`;
the z coordinate of `Vec3` translations is draw-layering only and is
dropped, as `check_for_collision` does via `truncate`). -/
structure Vec2 where
  x : ℚ
  y : ℚ
deriving DecidableEq

def Vec2.add (a b : Vec2) : Vec2 := ⟨a.x + b.x, a.y + b.y⟩

def Vec2.sub (a b : Vec2) : Vec2 := ⟨a.x - b.x, a.y - b.y⟩

/-- Squared euclidean distance (models `Vec2::distance_squared`). -/
def Vec2.distSq (a b : Vec2) : ℚ := (a.x - b.x) ^ 2 + (a.y - b.y) ^ 2

/-- Squared speed of a velocity vector; `|v| = √(speedSq v)`. -/
def Vec2.speedSq (v : Vec2) : ℚ := v.x ^ 2 + v.y ^ 2

/-- Scalar clamp, exactly Rust's `f32::clamp` for `lo ≤ hi`:
`if x < lo { lo } else if x > hi { hi } else { x }`. -/
def clampQ (x lo hi : ℚ) : ℚ := if x < lo then lo else if x > hi then hi else x

/-- Componentwise clamp (models glam's `Vec2::clamp`,
`self.max(min).min(max)`; for `lo ≤ hi` this equals `clampQ`
componentwise). -/
def Vec2.clampV (p lo hi : Vec2) : Vec2 :=
  ⟨min (max p.x lo.x) hi.x, min (max p.y lo.y) hi.y⟩

-- Configuration constants of `src/main.rs`, lines 7-32.

def BALL_INITIAL_POSITION : Vec2 := ⟨200, 0⟩

/-- `BALL_INITIAL_DIRECTION.normalize() * BALL_SPEED`
= `(0.5, 0).normalize() * 400` = `(1, 0) * 400` = `(400, 0)` exactly
(line 160 of the source). -/
def BALL_INITIAL_VELOCITY : Vec2 := ⟨400, 0⟩

def BALL_SPEED : ℚ := 400

def BALL_DIAMETER : ℚ := 25

def WALL_THICKNESS : ℚ := 10

def ARENA_W : ℚ := 1200

def ARENA_H : ℚ := 800

def TOP_WALL : ℚ := ARENA_H / 2

def BOTTOM_WALL : ℚ := -(ARENA_H / 2)

def LEFT_WALL : ℚ := -(ARENA_W / 2)

def RIGHT_WALL : ℚ := ARENA_W / 2

def PADDLE_W : ℚ := 10

def PADDLE_H : ℚ := 100

def PADDLE_DISTANCE_TO_WALL : ℚ := 20

def PADDLE_SPEED : ℚ := 300

/-- Which side of the arena a wall is located on (source lines 86-91). -/
inductive WallLocation
  | Left
  | Right
  | Bottom
  | Top
deriving DecidableEq

/-- `WallLocation::position` (source lines 94-101). -/
def WallLocation.position : WallLocation → Vec2
  | .Left => ⟨LEFT_WALL, 0⟩
  | .Right => ⟨RIGHT_WALL, 0⟩
  | .Bottom => ⟨0, BOTTOM_WALL⟩
  | .Top => ⟨0, TOP_WALL⟩

/-- `WallLocation::size` (source lines 103-112). -/
def WallLocation.size : WallLocation → Vec2
  | .Left | .Right => ⟨WALL_THICKNESS, ARENA_H + WALL_THICKNESS⟩
  | .Bottom | .Top => ⟨ARENA_W + WALL_THICKNESS, WALL_THICKNESS⟩

/-- Axis-aligned bounding box, models bevy's `Aabb2d`. -/
structure Aabb2d where
  min : Vec2
  max : Vec2
deriving DecidableEq

/-- `Aabb2d::new(center, half_size)`: box from center and half-size. -/
def Aabb2d.new (center half : Vec2) : Aabb2d :=
  ⟨center.sub half, center.add half⟩

/-- `Aabb2d::closest_point(p)`: clamp the point into the box. -/
def Aabb2d.closestPoint (a : Aabb2d) (p : Vec2) : Vec2 :=
  p.clampV a.min a.max

/-- Bounding circle, models bevy's `BoundingCircle` (center + radius). -/
structure BoundingCircle where
  center : Vec2
  radius : ℚ
deriving DecidableEq

/-- `BoundingCircle::new(center, radius)`. -/
def BoundingCircle.new (c : Vec2) (r : ℚ) : BoundingCircle := ⟨c, r⟩

/-- bevy's `BoundingCircle: IntersectsVolume<Aabb2d>`: the circle
intersects the box iff the squared distance from the circle's center to
the box's closest point is at most the squared radius. -/
def BoundingCircle.intersects (c : BoundingCircle) (a : Aabb2d) : Bool :=
  decide (Vec2.distSq (a.closestPoint c.center) c.center ≤ c.radius ^ 2)

/-- Struck-side classification result (source lines 266-272). -/
inductive Collision
  | Left
  | Right
  | Top
  | Bottom
deriving DecidableEq

/-- `offset = ball.center() - wall.closest_point(ball.center())`
(source lines 279-280). -/
def collisionOffset (ball : BoundingCircle) (wall : Aabb2d) : Vec2 :=
  ball.center.sub (wall.closestPoint ball.center)

/-- The `side` selection of `collide_with_side` (source lines 281-291):
dominant-axis classification of the offset from the box's closest point
to the ball's center; ties go to the vertical branch because the
horizontal branch needs the strict `>`. -/
def collisionSide (offset : Vec2) : Collision :=
  if |offset.x| > |offset.y| then
    if offset.x > 0 then Collision.Right else Collision.Left
  else if offset.y > 0 then Collision.Top
  else Collision.Bottom

/-- `collide_with_side` (source lines 274-294): `None` when the circle
does not intersect the box, otherwise `Some` of the side
classification. -/
def collide_with_side (ball : BoundingCircle) (wall : Aabb2d) :
    Option Collision :=
  if ¬ ball.intersects wall then none
  else some (collisionSide (collisionOffset ball wall))

/-- The bounding circle built for the ball in `check_for_collision`
(source line 208): radius `BALL_DIAMETER * 0.8`. -/
def collisionCircle (ballPos : Vec2) : BoundingCircle :=
  BoundingCircle.new ballPos (BALL_DIAMETER * (4 / 5))

/-- The `reflect_x` / `reflect_y` flags computed by the `match` on the
collision side (source lines 219-227). -/
def reflectFlags (c : Collision) (v : Vec2) : Bool × Bool :=
  match c with
  | .Top => (false, decide (v.y < 0))
  | .Bottom => (false, decide (v.y > 0))
  | .Left => (decide (v.x > 0), false)
  | .Right => (decide (v.x < 0), false)

/-- The conditional negations applied to the ball's velocity
(source lines 230-236). -/
def applyReflect (fl : Bool × Bool) (v : Vec2) : Vec2 :=
  let v1 := if fl.1 then { v with x := -v.x } else v
  if fl.2 then { v1 with y := -v1.y } else v1

/-- One iteration of the collider loop of `check_for_collision`
(source lines 204-237) for a single collider box: returns the updated
ball velocity and whether a collision event was sent for this collider
(`collision_events.send_default()` runs exactly when `collide_with_side`
returned `Some`, before the reflect flags are computed). -/
def resolveCollider (ballPos v : Vec2) (wall : Aabb2d) : Vec2 × Bool :=
  match collide_with_side (collisionCircle ballPos) wall with
  | none => (v, false)
  | some c => (applyReflect (reflectFlags c v) v, true)

/-- `check_for_collision` (source lines 196-239): fold the per-collider
step over the colliders in iteration order, counting sent collision
events. -/
def check_for_collision (ballPos v : Vec2) (colliders : List Aabb2d) :
    Vec2 × Nat :=
  colliders.foldl
    (fun st w =>
      let r := resolveCollider ballPos st.1 w
      (r.1, st.2 + if r.2 then 1 else 0))
    (v, 0)

/-- `apply_velocity` (source lines 186-194) for one entity:
`x += vx * dt; y += vy * dt`. -/
def apply_velocity (p v : Vec2) (dt : ℚ) : Vec2 :=
  ⟨p.x + v.x * dt, p.y + v.y * dt⟩

/-- Result of one fixed-update tick for the ball. -/
structure TickOut where
  ballPos : Vec2
  ballVel : Vec2
  events : Nat
deriving DecidableEq

/-- One `FixedUpdate` tick for the ball against a fixed set of collider
boxes, in the chained system order of the source (line 52-57):
`apply_velocity` first, then `check_for_collision` on the updated
position.  (`move_paddle` runs in between but writes only the paddle's
translation; with no input the paddle, and hence its collider box, is
unchanged.) -/
def tick (dt : ℚ) (pos v : Vec2) (colliders : List Aabb2d) : TickOut :=
  let pos1 := apply_velocity pos v dt
  let r := check_for_collision pos1 v colliders
  ⟨pos1, r.1, r.2⟩

-- Paddle controller.

/-- `top_bound` (source line 260). -/
def top_bound : ℚ :=
  TOP_WALL + WALL_THICKNESS / 2 - PADDLE_H - PADDLE_DISTANCE_TO_WALL

/-- `bottom_bound` (source line 261). -/
def bottom_bound : ℚ :=
  BOTTOM_WALL - WALL_THICKNESS / 2 + PADDLE_H + PADDLE_DISTANCE_TO_WALL

/-- The `direction` accumulated from the two key states
(source lines 247-255). -/
def paddleDirection (up down : Bool) : ℚ :=
  (if up then 1 else 0) - (if down then 1 else 0)

/-- `new_paddle_position` (source lines 257-258). -/
def paddleCandidate (up down : Bool) (dt y : ℚ) : ℚ :=
  y + paddleDirection up down * dt * PADDLE_SPEED

/-- `move_paddle` (source lines 241-264): the paddle's new `y`
translation, the candidate clamped to `[bottom_bound, top_bound]`. -/
def move_paddle (up down : Bool) (dt y : ℚ) : ℚ :=
  clampQ (paddleCandidate up down dt y) bottom_bound top_bound

-- Colliders spawned by `setup` (source lines 142-184).

/-- Collider box of a wall: centered at `location.position()` with the
wall sprite's `scale` as size, halved by `check_for_collision`
(source lines 209-212 together with 118-139). -/
def wallAabb (loc : WallLocation) : Aabb2d :=
  Aabb2d.new loc.position ⟨loc.size.x / 2, loc.size.y / 2⟩

/-- Initial x translation of the paddle (source line 168). -/
def PADDLE_INITIAL_X : ℚ :=
  LEFT_WALL + WALL_THICKNESS + PADDLE_DISTANCE_TO_WALL + PADDLE_W / 2

/-- Collider box of the paddle at height `y`.  The paddle entity's
`Transform` keeps the default scale `(1, 1)` (its rectangle shape lives
in the mesh, source line 165), and `check_for_collision` builds the box
from `transform.scale / 2`, so the paddle's collision box is 0.5 × 0.5. -/
def paddleAabb (y : ℚ) : Aabb2d :=
  Aabb2d.new ⟨PADDLE_INITIAL_X, y⟩ ⟨1 / 2, 1 / 2⟩

/-- All collider boxes present after `setup`, in spawn order
(paddle, then Top, Bottom, Left, Right walls; lines 163-183). -/
def setupColliders : List Aabb2d :=
  [paddleAabb 0, wallAabb .Top, wallAabb .Bottom, wallAabb .Left,
   wallAabb .Right]

-- Evaluation helpers for the concrete scenarios.

/-- The top wall's collider box is `[-605, 605] × [395, 405]`. -/
theorem wallAabb_Top_eval : wallAabb .Top = ⟨⟨-605, 395⟩, ⟨605, 405⟩⟩ := by
  norm_num [wallAabb, Aabb2d.new, WallLocation.position, WallLocation.size,
    Vec2.sub, Vec2.add, TOP_WALL, ARENA_H, ARENA_W, WALL_THICKNESS]

/-- A ball centered at `(0, 391)` intersects the top wall (distance 4 to
the wall's bottom edge, collision radius 20) and is classified as
striking the wall's `Bottom` face. -/
theorem side_at_391 :
    collide_with_side (collisionCircle ⟨0, 391⟩) (wallAabb .Top)
      = some Collision.Bottom := by
  rw [wallAabb_Top_eval]
  norm_num [collide_with_side, collisionSide, collisionOffset, collisionCircle,
    BoundingCircle.new, BoundingCircle.intersects, Aabb2d.closestPoint,
    Vec2.clampV, min_def, max_def, Vec2.sub, Vec2.distSq, BALL_DIAMETER,
    abs_eq_max_neg]

/-- Unfolding of the per-collider step when the side test reports a
collision. -/
theorem resolveCollider_eq_some (p v : Vec2) (w : Aabb2d) (c : Collision)
    (h : collide_with_side (collisionCircle p) w = some c) :
    resolveCollider p v w = (applyReflect (reflectFlags c v) v, true) := by
  unfold resolveCollider
  rw [h]

/-- Unfolding of the per-collider step when the side test reports no
collision. -/
theorem resolveCollider_eq_none (p v : Vec2) (w : Aabb2d)
    (h : collide_with_side (collisionCircle p) w = none) :
    resolveCollider p v w = (v, false) := by
  unfold resolveCollider
  rw [h]

/-- Resolving the top wall at `(0, 391)` with velocity `(0, -400)`:
the collision event is sent, but the velocity is unchanged (a `Bottom`
strike flips only a positive vertical velocity). -/
theorem resolveTop_eval :
    resolveCollider ⟨0, 391⟩ ⟨0, -400⟩ (wallAabb .Top) = (⟨0, -400⟩, true) := by
  rw [resolveCollider_eq_some _ _ _ _ side_at_391]
  norm_num [reflectFlags, applyReflect]

/-- Full evaluation of the straight-bounce scenario tick. -/
theorem tick_C1_eval :
    tick (1 / 100) ⟨0, 395⟩ ⟨0, -400⟩ [wallAabb .Top]
      = ⟨⟨0, 391⟩, ⟨0, -400⟩, 1⟩ := by
  have hpos : apply_velocity ⟨0, 395⟩ ⟨0, -400⟩ (1 / 100) = (⟨0, 391⟩ : Vec2) := by
    norm_num [apply_velocity]
  simp only [tick, hpos, check_for_collision, List.foldl, resolveTop_eval]
  norm_num

/-- Claim C1 (counterexample): in the straight-bounce scenario the
vertical velocity does not flip to `+400`. -/
theorem C1_counterexample :
    (tick (1 / 100) ⟨0, 395⟩ ⟨0, -400⟩ [wallAabb .Top]).ballVel ≠ ⟨0, 400⟩ := by
  rw [tick_C1_eval]
  norm_num [Vec2.mk.injEq]

/-- Claim C1 (amended): with the ball at `(0, 395)`, velocity
`(0, -400)` and the top wall present, one tick with `dt = 0.01` moves
the ball to `(0, 391)` and detects a collision against the top wall
(one event sent), but the strike classifies as the wall's `Bottom` face
and the vertical velocity, being negative, is left unchanged at `-400`
(no flip). -/
theorem C1_amended :
    tick (1 / 100) ⟨0, 395⟩ ⟨0, -400⟩ [wallAabb .Top]
        = ⟨⟨0, 391⟩, ⟨0, -400⟩, 1⟩ ∧
    collide_with_side (collisionCircle ⟨0, 391⟩) (wallAabb .Top)
        = some Collision.Bottom :=
  ⟨tick_C1_eval, side_at_391⟩

/-- Claim C2 (counterexample): the collision-circle radius built in
`check_for_collision` is not `0.8 * (25 / 2) = 10`. -/
theorem C2_counterexample :
    (collisionCircle ⟨0, 0⟩).radius ≠ (4 / 5) * (BALL_DIAMETER / 2) := by
  norm_num [collisionCircle, BoundingCircle.new, BALL_DIAMETER]

/-- Claim C2 (amended): every collision test treats the ball as a circle
of radius `BALL_DIAMETER * 0.8 = 20` — the source multiplies the
`BALL_DIAMETER` constant itself (which it also uses as the rendered
mesh radius), not half of it. -/
theorem C2_amended (p : Vec2) :
    (collisionCircle p).radius = (4 / 5) * BALL_DIAMETER ∧
    (collisionCircle p).radius = 20 := by
  norm_num [collisionCircle, BoundingCircle.new, BALL_DIAMETER]

/-- Claim C3 (counterexample): a collider can emit a collision event
with no velocity sign flip at all — at `(0, 391)` against the top wall
with velocity `(0, -400)` the event flag is `true` while the velocity
is returned unchanged. -/
theorem C3_counterexample :
    (resolveCollider ⟨0, 391⟩ ⟨0, -400⟩ (wallAabb .Top)).2 = true ∧
    (resolveCollider ⟨0, 391⟩ ⟨0, -400⟩ (wallAabb .Top)).1 = ⟨0, -400⟩ := by
  rw [resolveTop_eval]
  exact ⟨rfl, rfl⟩

/-- The event flag of the per-collider step is exactly the intersection
test's verdict, independent of any flip. -/
theorem resolveCollider_event (p v : Vec2) (w : Aabb2d) :
    (resolveCollider p v w).2 = (collide_with_side (collisionCircle p) w).isSome := by
  cases h : collide_with_side (collisionCircle p) w with
  | none => rw [resolveCollider_eq_none _ _ _ h]; rfl
  | some c => rw [resolveCollider_eq_some _ _ _ _ h]; rfl

/-- Event count of the collider fold: the accumulator grows by one per
collider whose intersection test reports a collision. -/
theorem check_events_aux (p : Vec2) (ws : List Aabb2d) :
    ∀ (v : Vec2) (n : ℕ),
      (ws.foldl (fun st w =>
          let r := resolveCollider p st.1 w
          (r.1, st.2 + if r.2 then 1 else 0)) (v, n)).2
        = n + ws.countP (fun w => (collide_with_side (collisionCircle p) w).isSome) := by
  induction ws with
  | nil => intro v n; simp
  | cons w ws ih =>
    intro v n
    simp only [List.foldl_cons, List.countP_cons]
    rw [ih, resolveCollider_event]
    cases (collide_with_side (collisionCircle p) w).isSome <;> (simp; try omega)

/-- Claim C3 (amended): the collision resolver emits a notification for
a collider exactly when the intersection test reports a collision for
it (whether or not any velocity component flips), and the number of
events per tick equals the number of intersecting colliders — hence at
most one event per collider per tick. -/
theorem C3_amended :
    (∀ (p v : Vec2) (w : Aabb2d),
        (resolveCollider p v w).2
          = (collide_with_side (collisionCircle p) w).isSome) ∧
    (∀ (p v : Vec2) (ws : List Aabb2d),
        (check_for_collision p v ws).2
          = ws.countP (fun w => (collide_with_side (collisionCircle p) w).isSome)) := by
  refine ⟨resolveCollider_event, fun p v ws => ?_⟩
  simpa [check_for_collision] using check_events_aux p ws v 0

/-- After one tick with `dt = 10` from the initial setup, the ball's x
position is 4200. -/
theorem ball_escape_eval :
    (tick 10 BALL_INITIAL_POSITION BALL_INITIAL_VELOCITY setupColliders).ballPos.x
      = 4200 := by
  show (apply_velocity BALL_INITIAL_POSITION BALL_INITIAL_VELOCITY 10).x = 4200
  norm_num [apply_velocity, BALL_INITIAL_POSITION, BALL_INITIAL_VELOCITY]

/-- 4200 is beyond the right wall's outer edge plus the collision
radius, i.e. beyond any overlap-before-bounce tolerance. -/
theorem escape_margin_eval :
    RIGHT_WALL + WALL_THICKNESS / 2 + (collisionCircle BALL_INITIAL_POSITION).radius
      < 4200 := by
  norm_num [RIGHT_WALL, ARENA_W, WALL_THICKNESS, collisionCircle,
    BoundingCircle.new, BALL_DIAMETER]

/-- Claim C4 (counterexample): from the initial setup (all four walls
and the paddle present), a single tick with the non-negative time delta
`dt = 10` puts the ball at `x = 4200`, far outside the arena rectangle
and beyond any overlap tolerance. -/
theorem C4_counterexample :
    (tick 10 BALL_INITIAL_POSITION BALL_INITIAL_VELOCITY setupColliders).ballPos.x
        = 4200 ∧
    RIGHT_WALL + WALL_THICKNESS / 2 + (collisionCircle BALL_INITIAL_POSITION).radius
        < 4200 :=
  ⟨ball_escape_eval, escape_margin_eval⟩

/-- Claim C4 (amended): the simulation never clamps the ball's
position — a tick moves the ball by exactly `velocity * dt` and the
collision resolver mutates only the velocity — so containment in the
arena is not enforced for arbitrary non-negative `dt`: from the initial
setup one tick with `dt = 10` already leaves the ball at `x = 4200`,
outside the arena. -/
theorem C4_amended :
    (∀ (dt : ℚ) (pos v : Vec2) (ws : List Aabb2d),
        (tick dt pos v ws).ballPos = apply_velocity pos v dt) ∧
    (tick 10 BALL_INITIAL_POSITION BALL_INITIAL_VELOCITY setupColliders).ballPos.x
        = 4200 :=
  ⟨fun _ _ _ _ => rfl, ball_escape_eval⟩

/-- Full case analysis of the scalar clamp for `lo ≤ hi`. -/
theorem clampQ_spec (x lo hi : ℚ) (h : lo ≤ hi) :
    (lo ≤ x → x ≤ hi → clampQ x lo hi = x) ∧
    (hi < x → clampQ x lo hi = hi) ∧
    (x < lo → clampQ x lo hi = lo) ∧
    lo ≤ clampQ x lo hi ∧ clampQ x lo hi ≤ hi := by
  unfold clampQ
  refine ⟨fun h1 h2 => ?_, fun h1 => ?_, fun h1 => ?_, ?_, ?_⟩ <;>
    split_ifs <;> first | rfl | linarith

/-- The paddle bounds evaluate to `[-285, 285]`. -/
theorem paddle_bounds_eval : bottom_bound = -285 ∧ top_bound = 285 := by
  norm_num [bottom_bound, top_bound, TOP_WALL, BOTTOM_WALL, ARENA_H,
    WALL_THICKNESS, PADDLE_H, PADDLE_DISTANCE_TO_WALL]

/-- Claim C5: the paddle controller writes back exactly the clamp of
the candidate position to `[bottom_bound, top_bound]` (with the bounds
computed from the wall constants, paddle half-height and clearance):
an in-range candidate is unchanged, a candidate above the top bound
yields exactly `top_bound`, one below yields exactly `bottom_bound`,
and the result always lies within the bounds. -/
theorem C5_theorem (up down : Bool) (dt y : ℚ) :
    move_paddle up down dt y
        = clampQ (paddleCandidate up down dt y) bottom_bound top_bound ∧
    (bottom_bound ≤ paddleCandidate up down dt y →
      paddleCandidate up down dt y ≤ top_bound →
      move_paddle up down dt y = paddleCandidate up down dt y) ∧
    (top_bound < paddleCandidate up down dt y →
      move_paddle up down dt y = top_bound) ∧
    (paddleCandidate up down dt y < bottom_bound →
      move_paddle up down dt y = bottom_bound) ∧
    bottom_bound ≤ move_paddle up down dt y ∧
    move_paddle up down dt y ≤ top_bound := by
  have hbt : bottom_bound ≤ top_bound := by
    obtain ⟨hb, ht⟩ := paddle_bounds_eval
    rw [hb, ht]; norm_num
  obtain ⟨h1, h2, h3, h4, h5⟩ :=
    clampQ_spec (paddleCandidate up down dt y) bottom_bound top_bound hbt
  exact ⟨rfl, h1, h2, h3, h4, h5⟩

/-- Claim C5 witness: pressing up for one second from `y = 0` overshoots
the top bound (candidate 300) and is clamped to exactly `top_bound`. -/
theorem C5_witness : move_paddle true false 1 0 = top_bound :=
  (C5_theorem true false 1 0).2.2.1 (by
    norm_num [top_bound, paddleCandidate, paddleDirection, TOP_WALL, ARENA_H,
      WALL_THICKNESS, PADDLE_H, PADDLE_DISTANCE_TO_WALL, PADDLE_SPEED])

/-- Claim C6: reflection is directional — a `Top` strike flips the
vertical velocity exactly when it is negative, `Bottom` when positive,
`Left` flips the horizontal exactly when positive, `Right` when
negative; in particular vy = -100 struck on `Top` becomes +100, and
vy = +100 struck on `Top` is left unchanged. -/
theorem C6_theorem (v : Vec2) :
    applyReflect (reflectFlags Collision.Top v) v
        = ⟨v.x, if v.y < 0 then -v.y else v.y⟩ ∧
    applyReflect (reflectFlags Collision.Bottom v) v
        = ⟨v.x, if 0 < v.y then -v.y else v.y⟩ ∧
    applyReflect (reflectFlags Collision.Left v) v
        = ⟨if 0 < v.x then -v.x else v.x, v.y⟩ ∧
    applyReflect (reflectFlags Collision.Right v) v
        = ⟨if v.x < 0 then -v.x else v.x, v.y⟩ ∧
    applyReflect (reflectFlags Collision.Top ⟨v.x, -100⟩) ⟨v.x, -100⟩
        = ⟨v.x, 100⟩ ∧
    applyReflect (reflectFlags Collision.Top ⟨v.x, 100⟩) ⟨v.x, 100⟩
        = ⟨v.x, 100⟩ := by
  refine ⟨?_, ?_, ?_, ?_, ?_, ?_⟩
  · by_cases h : v.y < 0 <;> simp [reflectFlags, applyReflect, h]
  · by_cases h : 0 < v.y <;> simp [reflectFlags, applyReflect, h]
  · by_cases h : 0 < v.x <;> simp [reflectFlags, applyReflect, h]
  · by_cases h : v.x < 0 <;> simp [reflectFlags, applyReflect, h]
  · norm_num [reflectFlags, applyReflect]
  · norm_num [reflectFlags, applyReflect]

/-- Reflection never rescales: each conditional negation preserves the
squared speed. -/
theorem applyReflect_speedSq (fl : Bool × Bool) (v : Vec2) :
    (applyReflect fl v).speedSq = v.speedSq := by
  obtain ⟨b1, b2⟩ := fl
  cases b1 <;> cases b2 <;> simp [applyReflect, Vec2.speedSq]

/-- One per-collider step preserves the squared speed. -/
theorem resolveCollider_speedSq (p v : Vec2) (w : Aabb2d) :
    ((resolveCollider p v w).1).speedSq = v.speedSq := by
  cases h : collide_with_side (collisionCircle p) w with
  | none => rw [resolveCollider_eq_none _ _ _ h]
  | some c => rw [resolveCollider_eq_some _ _ _ _ h]; exact applyReflect_speedSq _ v

/-- The collider fold preserves the squared speed from any accumulator. -/
theorem check_speedSq_aux (p : Vec2) (ws : List Aabb2d) :
    ∀ (v : Vec2) (n : ℕ),
      (((ws.foldl (fun st w =>
          let r := resolveCollider p st.1 w
          (r.1, st.2 + if r.2 then 1 else 0)) (v, n))).1).speedSq = v.speedSq := by
  induction ws with
  | nil => intro v n; rfl
  | cons w ws ih =>
    intro v n
    simp only [List.foldl_cons]
    rw [ih, resolveCollider_speedSq]

/-- Claim C7: over any sequence of collision resolutions within a tick,
the ball's speed magnitude is conserved — the squared norm of the
velocity after `check_for_collision` equals the squared norm before,
and hence so does the magnitude `√(vx² + vy²)`. -/
theorem C7_theorem (p v : Vec2) (ws : List Aabb2d) :
    ((check_for_collision p v ws).1).speedSq = v.speedSq ∧
    Real.sqrt ((((check_for_collision p v ws).1).speedSq : ℝ))
      = Real.sqrt ((v.speedSq : ℝ)) := by
  have h : ((check_for_collision p v ws).1).speedSq = v.speedSq :=
    check_speedSq_aux p ws v 0
  exact ⟨h, by rw [h]⟩

/-- On a magnitude tie the side selection takes the vertical branch. -/
theorem collisionSide_tie (offset : Vec2) (h : |offset.x| = |offset.y|) :
    collisionSide offset
      = if offset.y > 0 then Collision.Top else Collision.Bottom := by
  unfold collisionSide
  rw [h, if_neg (lt_irrefl _)]

/-- Claim C8: for an intersecting ball/box pair whose offset satisfies
`|offset.x| = |offset.y|`, the classification resolves to the vertical
branch — `Top` when `offset.y > 0`, otherwise `Bottom` — and never to
`Left` or `Right`, because the horizontal branch requires strict
inequality. -/
theorem C8_theorem (ball : BoundingCircle) (wall : Aabb2d)
    (hin : ball.intersects wall = true)
    (h : |(collisionOffset ball wall).x| = |(collisionOffset ball wall).y|) :
    collide_with_side ball wall
        = some (if (collisionOffset ball wall).y > 0 then Collision.Top
                else Collision.Bottom) ∧
    collide_with_side ball wall ≠ some Collision.Left ∧
    collide_with_side ball wall ≠ some Collision.Right := by
  have hmain : collide_with_side ball wall
      = some (if (collisionOffset ball wall).y > 0 then Collision.Top
              else Collision.Bottom) := by
    unfold collide_with_side
    rw [if_neg (by simp [hin]), collisionSide_tie _ h]
  refine ⟨hmain, ?_, ?_⟩ <;> rw [hmain] <;> split_ifs <;> simp

/-- Claim C8 witness: ball centered at `(11, 11)` with radius 5 against
the box `[-10, 10]²` — closest point `(10, 10)`, offset `(1, 1)`, a
magnitude tie — classifies as `Top`. -/
theorem C8_witness :
    collide_with_side (BoundingCircle.new ⟨11, 11⟩ 5) (Aabb2d.new ⟨0, 0⟩ ⟨10, 10⟩)
      = some Collision.Top := by
  have hoff : collisionOffset (BoundingCircle.new ⟨11, 11⟩ 5)
      (Aabb2d.new ⟨0, 0⟩ ⟨10, 10⟩) = ⟨1, 1⟩ := by
    norm_num [collisionOffset, BoundingCircle.new, Aabb2d.new, Aabb2d.closestPoint,
      Vec2.clampV, min_def, max_def, Vec2.sub, Vec2.add]
  have hin : (BoundingCircle.new ⟨11, 11⟩ 5).intersects
      (Aabb2d.new ⟨0, 0⟩ ⟨10, 10⟩) = true := by
    norm_num [BoundingCircle.intersects, BoundingCircle.new, Aabb2d.new,
      Aabb2d.closestPoint, Vec2.clampV, min_def, max_def, Vec2.distSq,
      Vec2.sub, Vec2.add]
  have h := (C8_theorem (BoundingCircle.new ⟨11, 11⟩ 5)
    (Aabb2d.new ⟨0, 0⟩ ⟨10, 10⟩) hin (by rw [hoff])).1
  rw [h, hoff]
  norm_num

/-- If the horizontal flag is off, the horizontal component is kept. -/
theorem applyReflect_x_eq (b : Bool) (v : Vec2) :
    (applyReflect (false, b) v).x = v.x := by
  cases b <;> simp [applyReflect]

/-- If the vertical flag is off, the vertical component is kept. -/
theorem applyReflect_y_eq (b : Bool) (v : Vec2) :
    (applyReflect (b, false) v).y = v.y := by
  cases b <;> simp [applyReflect]

/-- Claim C9: a single collision event negates at most one velocity
component — `Top`/`Bottom` strikes keep the horizontal component,
`Left`/`Right` strikes keep the vertical component, and in every case
at least one component is unchanged. -/
theorem C9_theorem (c : Collision) (v : Vec2) :
    ((c = Collision.Top ∨ c = Collision.Bottom) →
      (applyReflect (reflectFlags c v) v).x = v.x) ∧
    ((c = Collision.Left ∨ c = Collision.Right) →
      (applyReflect (reflectFlags c v) v).y = v.y) ∧
    ((applyReflect (reflectFlags c v) v).x = v.x ∨
      (applyReflect (reflectFlags c v) v).y = v.y) := by
  cases c
  case Top =>
    exact ⟨fun _ => applyReflect_x_eq _ v, fun h => by rcases h with h | h <;> simp at h,
      Or.inl (applyReflect_x_eq _ v)⟩
  case Bottom =>
    exact ⟨fun _ => applyReflect_x_eq _ v, fun h => by rcases h with h | h <;> simp at h,
      Or.inl (applyReflect_x_eq _ v)⟩
  case Left =>
    exact ⟨fun h => by rcases h with h | h <;> simp at h, fun _ => applyReflect_y_eq _ v,
      Or.inr (applyReflect_y_eq _ v)⟩
  case Right =>
    exact ⟨fun h => by rcases h with h | h <;> simp at h, fun _ => applyReflect_y_eq _ v,
      Or.inr (applyReflect_y_eq _ v)⟩

/-- Claim C9 witness: a `Top` strike on velocity `(3, -5)` keeps the
horizontal component 3. -/
theorem C9_witness :
    (applyReflect (reflectFlags Collision.Top ⟨3, -5⟩) ⟨3, -5⟩).x = 3 :=
  (C9_theorem Collision.Top ⟨3, -5⟩).1 (Or.inl rfl)

/-- Claim C10: whenever the box's closest point to the ball's center is
the center itself (zero offset, e.g. the center inside the box), the
test reports an intersection and the side classifies as `Bottom`. -/
theorem C10_theorem (ball : BoundingCircle) (wall : Aabb2d)
    (h : wall.closestPoint ball.center = ball.center) :
    collide_with_side ball wall = some Collision.Bottom := by
  have hin : ball.intersects wall = true := by
    unfold BoundingCircle.intersects
    rw [h]
    have h0 : Vec2.distSq ball.center ball.center = 0 := by
      simp [Vec2.distSq]
    rw [h0, decide_eq_true_eq]
    positivity
  have hoff : collisionOffset ball wall = ⟨0, 0⟩ := by
    simp [collisionOffset, h, Vec2.sub]
  unfold collide_with_side
  rw [if_neg (by simp [hin]), hoff]
  norm_num [collisionSide]

/-- Claim C10 witness: ball centered at the box's center (offset
`(0, 0)`) reports an intersection classified as `Bottom`. -/
theorem C10_witness :
    collide_with_side (BoundingCircle.new ⟨0, 0⟩ 5) (Aabb2d.new ⟨0, 0⟩ ⟨10, 10⟩)
      = some Collision.Bottom :=
  C10_theorem (BoundingCircle.new ⟨0, 0⟩ 5) (Aabb2d.new ⟨0, 0⟩ ⟨10, 10⟩) (by
    norm_num [Aabb2d.closestPoint, Aabb2d.new, BoundingCircle.new, Vec2.clampV,
      Vec2.add, Vec2.sub, min_def, max_def])

end BevyPong
